import Mathlib

/-!
Verification of the transform combinator (include/unifex/transform.hpp).

The combinator wraps a predecessor sender and a function Func. Its receiver
wrapper intercepts the value signal, invokes Func, and forwards error and
done unchanged. We give a shallow embedding as a trace semantics: each
receiver entry point returns

  - the list of downstream deliveries it performs (value/no-payload
    value/error/done events, with downstream errors split into the
    forwarded upstream error and the captured failure object),
  - the failure that escapes the wrapper, if any (a failure escaping a
    noexcept receiver method means std::terminate in C++), and
  - the list of arguments Func was invoked on (one entry per call of
    std::invoke in the executed branch).

Failure (C++ exceptions) is modelled with Except: a Func that may fail is
a function into Except F W. The downstream receiver itself may fail while
accepting the value signal; that behaviour is the parameter dvFail (for
a payload w, dvFail w = some f means the downstream value delivery raises
f; none means it succeeds). Downstream set_error and set_done are noexcept
by the receiver contract and are modelled total.

The static noexcept(std::invoke(...)) dispatch in set_value is modelled by
the Bool parameter guarded: guarded = true is the try/catch branch (taken
when the Func invocation is not statically failure-free), guarded = false
is the unguarded branch. The two if-constexpr branches on whether the Func
result type is void become the two definitions set_value_nonvoid and
set_value_void.
-/

/-- A delivery observed by the downstream receiver: a value signal with
payload, the no-payload value signal (void Func result), an error signal
(either the forwarded upstream error, inl, or a captured failure, inr),
or the done signal. -/
inductive Evt (W E F : Type) where
  | value : W → Evt W E F
  | value0 : Evt W E F
  | error : E ⊕ F → Evt W E F
  | done : Evt W E F
  deriving DecidableEq

/-- Result of running one wrapper entry point: downstream deliveries in
order, the failure escaping the wrapper (if any), and the arguments Func
was invoked on. -/
structure OpResult (V W E F : Type) where
  events : List (Evt W E F)
  escaped : Option F
  calls : List V
  deriving DecidableEq

/-- The terminal signal delivered by the predecessor to the wrapper. -/
inductive PredSignal (V E : Type) where
  | value : V → PredSignal V E
  | error : E → PredSignal V E
  | done : PredSignal V E
  deriving DecidableEq

/-- Embedding of receiver set_value for a non-void Func result
(transform.hpp lines 75-90). guarded = true is the branch where the Func
invocation is not statically noexcept: the try block encloses both the
Func invocation and the downstream set_value call, and catch delivers
set_error with the captured failure. guarded = false invokes Func and the
downstream set_value with no guard, so a failure there escapes the
(noexcept) wrapper method. -/
def set_value_nonvoid {V W E F : Type} (guarded : Bool) (func : V → Except F W)
    (dvFail : W → Option F) (v : V) : OpResult V W E F :=
  if guarded then
    match func v with
    | Except.error f => ⟨[Evt.error (Sum.inr f)], none, [v]⟩
    | Except.ok w =>
      match dvFail w with
      | none => ⟨[Evt.value w], none, [v]⟩
      | some f => ⟨[Evt.value w, Evt.error (Sum.inr f)], none, [v]⟩
  else
    match func v with
    | Except.error f => ⟨[], some f, [v]⟩
    | Except.ok w =>
      match dvFail w with
      | none => ⟨[Evt.value w], none, [v]⟩
      | some f => ⟨[Evt.value w], some f, [v]⟩

/-- Embedding of receiver set_value for a void Func result (transform.hpp
lines 61-74): invoke Func for its effect, then deliver the no-payload
value signal downstream. dv0Fail is the failure raised by the downstream
no-payload value delivery, if any. -/
def set_value_void {V E F : Type} (guarded : Bool) (func : V → Except F Unit)
    (dv0Fail : Option F) (v : V) : OpResult V Unit E F :=
  if guarded then
    match func v with
    | Except.error f => ⟨[Evt.error (Sum.inr f)], none, [v]⟩
    | Except.ok _ =>
      match dv0Fail with
      | none => ⟨[Evt.value0], none, [v]⟩
      | some f => ⟨[Evt.value0, Evt.error (Sum.inr f)], none, [v]⟩
  else
    match func v with
    | Except.error f => ⟨[], some f, [v]⟩
    | Except.ok _ =>
      match dv0Fail with
      | none => ⟨[Evt.value0], none, [v]⟩
      | some f => ⟨[Evt.value0], some f, [v]⟩

/-- Embedding of receiver set_error (transform.hpp lines 93-96): forward
the identical upstream error downstream; Func is not invoked. -/
def receiver_set_error {V W E F : Type} (e : E) : OpResult V W E F :=
  ⟨[Evt.error (Sum.inl e)], none, []⟩

/-- Embedding of receiver set_done (transform.hpp lines 98-100): forward
done downstream; Func is not invoked. -/
def receiver_set_done {V W E F : Type} : OpResult V W E F :=
  ⟨[Evt.done], none, []⟩

/-- The composed operation reaction to the one terminal predecessor
signal, non-void Func result: the wrapper dispatches to set_value,
set_error or set_done. -/
def transformOp {V W E F : Type} (guarded : Bool) (func : V → Except F W)
    (dvFail : W → Option F) : PredSignal V E → OpResult V W E F
  | PredSignal.value v => set_value_nonvoid guarded func dvFail v
  | PredSignal.error e => receiver_set_error e
  | PredSignal.done => receiver_set_done

/-- The composed operation reaction for a void Func result. -/
def transformOpVoid {V E F : Type} (guarded : Bool) (func : V → Except F Unit)
    (dv0Fail : Option F) : PredSignal V E → OpResult V Unit E F
  | PredSignal.value v => set_value_void guarded func dv0Fail v
  | PredSignal.error e => receiver_set_error e
  | PredSignal.done => receiver_set_done

/-- Modelled from the spec: concat_type_lists_unique_t (from
include/unifex/type_list.hpp, which is not part of the sources here)
concatenates type lists and merges duplicate entries into one. Shapes are
represented by elements of a type with decidable equality. -/
def concat_type_lists_unique {α : Type} [DecidableEq α] (xs ys : List α) : List α :=
  (xs ++ ys).dedup

/-- Embedding of detail::result_overload (transform.hpp lines 35-42): a
non-void Func result type R becomes the one-element payload shape, a void
result becomes the empty (no-payload) shape. The Func result type is
modelled as Option: none stands for void. -/
def result_overload {α : Type} (res : Option α) : List α :=
  match res with
  | some t => [t]
  | none => []

/-- Embedding of the sender error_types alias (transform.hpp lines
148-151): the deduplicating concatenation of the predecessor error shapes
with the singleton exception_ptr (wrapped failure) shape. -/
def error_types {α : Type} [DecidableEq α] (predErrors : List α)
    (exception_ptr : α) : List α :=
  concat_type_lists_unique predErrors [exception_ptr]

/-- Embedding of the sender value_types alias (transform.hpp lines
135-146): every value payload shape the predecessor may produce is mapped
through result_overload of the Func result type for that shape, and the
predecessor folds the alternatives through concat_type_lists_unique_t,
merging duplicates. funcResult gives the Func result type (none = void)
on each argument shape. -/
def value_types {α : Type} [DecidableEq α] (predValues : List (List α))
    (funcResult : List α → Option α) : List (List α) :=
  (predValues.map fun ts => result_overload (funcResult ts)).dedup

/-- The wrapper receiver object: owns the Func and the downstream
receiver (transform.hpp lines 53-56). -/
structure TransformReceiver (Fn R : Type) where
  func_ : Fn
  receiver_ : R

/-- The transform sender: owns the predecessor and the Func
(transform.hpp lines 124-127). -/
structure TransformSender (P Fn : Type) where
  pred_ : P
  func_ : Fn

/-- The connected operation: the predecessor connected to the wrapper
receiver built around the caller supplied downstream receiver. -/
structure TransformOperation (P Fn R : Type) where
  pred : P
  recv : TransformReceiver Fn R

/-- Embedding of the factory function transform (transform.hpp lines
188-192): stores predecessor and Func in a new sender. -/
def transform {P Fn : Type} (pred : P) (func : Fn) : TransformSender P Fn :=
  ⟨pred, func⟩

/-- Embedding of the rvalue (consuming) connect overload (transform.hpp
lines 161-168): moves predecessor and Func into the new operation. -/
def connect_move {P Fn R : Type} (s : TransformSender P Fn) (r : R) :
    TransformOperation P Fn R :=
  ⟨s.pred_, ⟨s.func_, r⟩⟩

/-- Embedding of the lvalue (non-consuming, mutable) connect overload
(transform.hpp lines 170-176): builds the operation from copies of the
stored predecessor and Func; the method body contains no mutation of the
sender, so the post-state is the sender unchanged, returned alongside the
new operation. -/
def connect_ref {P Fn R : Type} (s : TransformSender P Fn) (r : R) :
    TransformOperation P Fn R × TransformSender P Fn :=
  (⟨s.pred_, ⟨s.func_, r⟩⟩, s)

/-- Embedding of the const lvalue (non-consuming, read-only) connect
overload (transform.hpp lines 178-184): same body as the mutable
overload, on a const object, so the sender cannot be modified. -/
def connect_constref {P Fn R : Type} (s : TransformSender P Fn) (r : R) :
    TransformOperation P Fn R × TransformSender P Fn :=
  (⟨s.pred_, ⟨s.func_, r⟩⟩, s)

/-- Embedding of the blocking tag_invoke overload (transform.hpp lines
156-158): the blocking classification of the composed sender is the
blocking classification of its predecessor, keeping the classification
function bl abstract. -/
def blocking_query {P Fn B : Type} (bl : P → B) (s : TransformSender P Fn) : B :=
  bl s.pred_

example : @set_value_nonvoid Nat Nat Nat Nat true (fun n => Except.ok (n * 2))
    (fun _ => none) 5 = ⟨[Evt.value 10], none, [5]⟩ := by decide

example : @set_value_nonvoid Nat Nat Nat Nat true (fun _ => Except.error 3)
    (fun _ => none) 5 = ⟨[Evt.error (Sum.inr 3)], none, [5]⟩ := by decide

theorem set_value_nonvoid_calls {V W E F : Type} (g : Bool) (func : V → Except F W)
    (dvFail : W → Option F) (v : V) :
    (set_value_nonvoid (E := E) g func dvFail v).calls = [v] := by
  unfold set_value_nonvoid
  cases g <;> cases func v <;> simp <;> rename_i w <;> cases dvFail w <;> simp

theorem set_value_void_calls {V E F : Type} (g : Bool) (func : V → Except F Unit)
    (dv0Fail : Option F) (v : V) :
    (set_value_void (E := E) g func dv0Fail v).calls = [v] := by
  unfold set_value_void
  cases g <;> cases func v <;> cases dv0Fail <;> simp

theorem guarded_single_delivery {V W E F : Type} (func : V → Except F W)
    (sig : PredSignal V E) :
    (transformOp true func (fun _ => none) sig).events.length = 1 ∧
    (transformOp true func (fun _ => none) sig).escaped = none := by
  cases sig with
  | value v =>
    unfold transformOp set_value_nonvoid
    cases h : func v <;> simp [h]
  | error e => exact ⟨rfl, rfl⟩
  | done => exact ⟨rfl, rfl⟩

/-- C1: for every predecessor value signal with payload v on which Func
does not fail (func v = ok w) and whose result the downstream receiver
accepts without failing, the composed operation delivers exactly the one
value signal carrying Func(v) — the no-payload value signal when the Func
result type is void — and delivers no error, no done, and lets nothing
escape; this holds on both the guarded and the unguarded branch. -/
theorem transform_value_delivery {V W E F : Type} (g g0 : Bool)
    (func : V → Except F W) (dvFail : W → Option F) (v : V) (w : W)
    (func0 : V → Except F Unit) (v0 : V)
    (hf : func v = Except.ok w) (hd : dvFail w = none)
    (hf0 : func0 v0 = Except.ok ()) :
    transformOp (E := E) g func dvFail (PredSignal.value v) =
      ⟨[Evt.value w], none, [v]⟩ ∧
    transformOpVoid (E := E) g0 func0 none (PredSignal.value v0) =
      ⟨[Evt.value0], none, [v0]⟩ := by
  constructor
  · unfold transformOp set_value_nonvoid
    cases g <;> simp [hf, hd]
  · unfold transformOpVoid set_value_void
    cases g0 <;> simp [hf0]

theorem transform_value_delivery_witness :
    transformOp (E := Nat) true (fun n => Except.ok (n * 2))
      (fun _ => (none : Option Nat)) (PredSignal.value 5) =
      ⟨[Evt.value 10], none, [5]⟩ ∧
    transformOpVoid (E := Nat) true (fun _ : Nat => Except.ok ())
      (none : Option Nat) (PredSignal.value 3) =
      ⟨[Evt.value0], none, [3]⟩ :=
  transform_value_delivery true true (fun n => Except.ok (n * 2))
    (fun _ => none) 5 10 (fun _ => Except.ok ()) 3 rfl rfl rfl

/-- C2: for every predecessor value signal with payload v on which Func
raises a failure f, the composed operation (on the guarded branch, which
is the one taken when the Func invocation is not statically
failure-free) delivers exactly one error signal carrying the captured
failure f, delivers no value and no done signal, and the failure does not
escape past the wrapper; likewise for a void-result Func. -/
theorem transform_failure_to_error {V W E F : Type}
    (func : V → Except F W) (dvFail : W → Option F) (v : V) (f : F)
    (func0 : V → Except F Unit) (dv0 : Option F) (v0 : V) (f0 : F)
    (hf : func v = Except.error f) (hf0 : func0 v0 = Except.error f0) :
    transformOp (E := E) true func dvFail (PredSignal.value v) =
      ⟨[Evt.error (Sum.inr f)], none, [v]⟩ ∧
    transformOpVoid (E := E) true func0 dv0 (PredSignal.value v0) =
      ⟨[Evt.error (Sum.inr f0)], none, [v0]⟩ := by
  constructor
  · unfold transformOp set_value_nonvoid
    simp [hf]
  · unfold transformOpVoid set_value_void
    simp [hf0]

theorem transform_failure_to_error_witness :
    transformOp (E := Nat) true (fun _ : Nat => (Except.error 9 : Except Nat Nat))
      (fun _ => none) (PredSignal.value 5) =
      ⟨[Evt.error (Sum.inr 9)], none, [5]⟩ ∧
    transformOpVoid (E := Nat) true (fun _ : Nat => (Except.error 8 : Except Nat Unit))
      none (PredSignal.value 4) =
      ⟨[Evt.error (Sum.inr 8)], none, [4]⟩ :=
  transform_failure_to_error (fun _ => Except.error 9) (fun _ => none) 5 9
    (fun _ => Except.error 8) none 4 8 rfl rfl

/-- C3: for every predecessor error signal carrying e, the composed
operation forwards the identical e downstream (as a forwarded upstream
error, Sum.inl e), and for every predecessor done signal it forwards
done; in both cases Func is never invoked (calls = []) and nothing
escapes, on every branch and for void and non-void Func results. -/
theorem transform_forwards_error_done {V W E F : Type} (g g0 : Bool)
    (func : V → Except F W) (dvFail : W → Option F)
    (func0 : V → Except F Unit) (dv0 : Option F) (e : E) :
    transformOp g func dvFail (PredSignal.error e) =
      ⟨[Evt.error (Sum.inl e)], none, []⟩ ∧
    transformOp (E := E) g func dvFail PredSignal.done = ⟨[Evt.done], none, []⟩ ∧
    transformOpVoid g0 func0 dv0 (PredSignal.error e) =
      ⟨[Evt.error (Sum.inl e)], none, []⟩ ∧
    transformOpVoid (E := E) g0 func0 dv0 PredSignal.done = ⟨[Evt.done], none, []⟩ :=
  ⟨rfl, rfl, rfl, rfl⟩

/-- C4: for every connected operation, Func is invoked at most once, and
it is invoked exactly once if and only if the predecessor delivers a
value signal; on the error and done paths the invocation list is empty.
This holds on every branch (guarded or not, void or non-void result),
for every downstream behaviour. -/
theorem transform_func_called_iff_value {V W E F : Type} (g g0 : Bool)
    (func : V → Except F W) (dvFail : W → Option F)
    (func0 : V → Except F Unit) (dv0 : Option F) :
    (∀ s : PredSignal V E,
      (transformOp g func dvFail s).calls.length ≤ 1 ∧
      ((transformOp g func dvFail s).calls.length = 1 ↔
        ∃ v, s = PredSignal.value v)) ∧
    (∀ s : PredSignal V E,
      (transformOpVoid g0 func0 dv0 s).calls.length ≤ 1 ∧
      ((transformOpVoid g0 func0 dv0 s).calls.length = 1 ↔
        ∃ v, s = PredSignal.value v)) := by
  constructor
  · intro s
    cases s with
    | value v =>
      simp [transformOp, set_value_nonvoid_calls]
    | error e => simp [transformOp, receiver_set_error]
    | done => simp [transformOp, receiver_set_done]
  · intro s
    cases s with
    | value v =>
      simp [transformOpVoid, set_value_void_calls]
    | error e => simp [transformOpVoid, receiver_set_error]
    | done => simp [transformOpVoid, receiver_set_done]

/-- C5 counterexample: the guarded and the unguarded value paths do not
produce identical observable behaviour in all cases, even for a Func that
does not fail. With func n = ok (n + 1) (non-failing, func 0 = ok 1) and
a downstream receiver whose value delivery raises 7, the guarded path
delivers the value signal followed by an error signal carrying the
captured failure, while the unguarded path delivers only the value signal
and lets the failure escape the noexcept wrapper. -/
theorem transform_guard_elision_cex :
    (fun n : Nat => (Except.ok (n + 1) : Except Nat Nat)) 0 = Except.ok 1 ∧
    set_value_nonvoid (E := Nat) true
        (fun n : Nat => (Except.ok (n + 1) : Except Nat Nat)) (fun _ => some 7) 0 ≠
      set_value_nonvoid (E := Nat) false
        (fun n : Nat => (Except.ok (n + 1) : Except Nat Nat)) (fun _ => some 7) 0 :=
  ⟨rfl, by decide⟩

/-- C5 amended: for every Func and payload v on which Func does not fail,
provided the downstream value delivery itself does not fail, the guarded
and the unguarded value paths produce identical observable behaviour at
the downstream receiver: the same deliveries, the same escape status, the
same Func invocations; likewise for a void-result Func. -/
theorem transform_guard_elision_agree {V W E F : Type}
    (func : V → Except F W) (dvFail : W → Option F) (v : V) (w : W)
    (func0 : V → Except F Unit) (v0 : V)
    (hf : func v = Except.ok w) (hd : dvFail w = none)
    (hf0 : func0 v0 = Except.ok ()) :
    set_value_nonvoid (E := E) true func dvFail v =
      set_value_nonvoid (E := E) false func dvFail v ∧
    set_value_void (E := E) true func0 none v0 =
      set_value_void (E := E) false func0 none v0 := by
  constructor
  · unfold set_value_nonvoid
    simp [hf, hd]
  · unfold set_value_void
    simp [hf0]

theorem transform_guard_elision_agree_witness :
    set_value_nonvoid (E := Nat) true
        (fun n : Nat => (Except.ok (n + 1) : Except Nat Nat)) (fun _ => none) 0 =
      set_value_nonvoid (E := Nat) false
        (fun n : Nat => (Except.ok (n + 1) : Except Nat Nat)) (fun _ => none) 0 ∧
    set_value_void (E := Nat) true (fun _ : Nat => (Except.ok () : Except Nat Unit))
        none 2 =
      set_value_void (E := Nat) false (fun _ : Nat => (Except.ok () : Except Nat Unit))
        none 2 :=
  transform_guard_elision_agree (fun n => Except.ok (n + 1)) (fun _ => none) 0 1
    (fun _ => Except.ok ()) 2 rfl rfl rfl

/-- C6: the declared error-shape set of the composed sender contains the
wrapped-failure shape (exception_ptr) unconditionally — also when the
predecessor declares no error shapes at all — and its membership is
exactly the union of the predecessor error shapes with the
wrapped-failure shape, with duplicates merged. -/
theorem error_types_contains_wrapped {α : Type} [DecidableEq α]
    (predErrors : List α) (exception_ptr : α) :
    exception_ptr ∈ error_types predErrors exception_ptr ∧
    (∀ x, x ∈ error_types predErrors exception_ptr ↔
      x ∈ predErrors ∨ x = exception_ptr) ∧
    (error_types predErrors exception_ptr).Nodup := by
  refine ⟨?_, ?_, List.nodup_dedup _⟩
  · simp [error_types, concat_type_lists_unique]
  · intro x
    simp [error_types, concat_type_lists_unique]

theorem error_types_contains_wrapped_witness :
    (0 : Nat) ∈ error_types [] 0 :=
  (error_types_contains_wrapped [] 0).1

/-- C7: the declared value-shape set of the composed sender is exactly
the predecessor value shapes mapped through the Func result shape: a
shape s is declared iff some predecessor alternative ts maps to it via
result_overload of the Func result on ts; the result has no duplicate
shapes; a void result collapses to the empty no-payload shape and a
non-void result t to the one-payload shape. -/
theorem value_types_maps_shapes {α : Type} [DecidableEq α]
    (predValues : List (List α)) (funcResult : List α → Option α) :
    (∀ s, s ∈ value_types predValues funcResult ↔
      ∃ ts ∈ predValues, s = result_overload (funcResult ts)) ∧
    (value_types predValues funcResult).Nodup ∧
    result_overload (none : Option α) = [] ∧
    (∀ t : α, result_overload (some t) = [t]) := by
  refine ⟨?_, List.nodup_dedup _, rfl, fun t => rfl⟩
  intro s
  simp [value_types, List.mem_map, eq_comm]

theorem value_types_maps_shapes_witness :
    [5] ∈ value_types [[1], [2]] (fun _ : List Nat => some 5) :=
  ((value_types_maps_shapes [[1], [2]] (fun _ => some 5)).1 [5]).2
    ⟨[1], by decide, rfl⟩

/-- C8: the blocking classification of the composed sender is exactly the
classification of its predecessor, for every classification function and
every stored predecessor and Func. -/
theorem blocking_matches_predecessor {P Fn B : Type} (bl : P → B)
    (s : TransformSender P Fn) :
    blocking_query bl s = bl s.pred_ := rfl

/-- C9: connecting a stage through the non-consuming lvalue overload
leaves the stage unchanged, so connecting twice in sequence yields two
operations, each pairing the same stored predecessor and Func with its
own downstream receiver, and each operation (run on the general guarded
branch with a downstream that accepts the value) delivers exactly one
downstream signal with nothing escaping, whatever the predecessor
signals; the read-only const overload returns the same operation and the
unmodified stage. -/
theorem connect_ref_reusable {P V W E F R : Type}
    (s : TransformSender P (V → Except F W)) (r1 r2 : R) :
    (connect_ref s r1).2 = s ∧
    (connect_ref (connect_ref s r1).2 r2).2 = s ∧
    connect_constref s r1 = ((connect_ref s r1).1, s) ∧
    (connect_ref s r1).1 = ⟨s.pred_, ⟨s.func_, r1⟩⟩ ∧
    (connect_ref (connect_ref s r1).2 r2).1 = ⟨s.pred_, ⟨s.func_, r2⟩⟩ ∧
    (∀ sig : PredSignal V E,
      (transformOp true (connect_ref s r1).1.recv.func_
        (fun _ => none) sig).events.length = 1 ∧
      (transformOp true (connect_ref s r1).1.recv.func_
        (fun _ => none) sig).escaped = none) ∧
    (∀ sig : PredSignal V E,
      (transformOp true (connect_ref (connect_ref s r1).2 r2).1.recv.func_
        (fun _ => none) sig).events.length = 1 ∧
      (transformOp true (connect_ref (connect_ref s r1).2 r2).1.recv.func_
        (fun _ => none) sig).escaped = none) :=
  ⟨rfl, rfl, rfl, rfl, rfl,
    fun sig => guarded_single_delivery s.func_ sig,
    fun sig => guarded_single_delivery s.func_ sig⟩

/-- C10: on the guarded value path, a failure raised by the downstream
value delivery itself — after Func succeeded — is also caught: the
wrapper delivers an error signal carrying the captured failure to that
same downstream receiver and nothing escapes, both for non-void and for
void Func results. -/
theorem guarded_catches_downstream_failure {V W E F : Type}
    (func : V → Except F W) (dvFail : W → Option F) (v : V) (w : W) (f : F)
    (func0 : V → Except F Unit) (v0 : V) (f0 : F)
    (hf : func v = Except.ok w) (hd : dvFail w = some f)
    (hf0 : func0 v0 = Except.ok ()) :
    set_value_nonvoid (E := E) true func dvFail v =
      ⟨[Evt.value w, Evt.error (Sum.inr f)], none, [v]⟩ ∧
    set_value_void (E := E) true func0 (some f0) v0 =
      ⟨[Evt.value0, Evt.error (Sum.inr f0)], none, [v0]⟩ := by
  constructor
  · unfold set_value_nonvoid
    simp [hf, hd]
  · unfold set_value_void
    simp [hf0]

theorem guarded_catches_downstream_failure_witness :
    set_value_nonvoid (E := Nat) true
        (fun n : Nat => (Except.ok (n + 1) : Except Nat Nat)) (fun _ => some 7) 3 =
      ⟨[Evt.value 4, Evt.error (Sum.inr 7)], none, [3]⟩ ∧
    set_value_void (E := Nat) true (fun _ : Nat => (Except.ok () : Except Nat Unit))
        (some 6) 2 =
      ⟨[Evt.value0, Evt.error (Sum.inr 6)], none, [2]⟩ :=
  guarded_catches_downstream_failure (fun n => Except.ok (n + 1)) (fun _ => some 7)
    3 4 7 (fun _ => Except.ok ()) 2 6 rfl rfl rfl
